import Mathlib

/-!
Shallow embedding of the worker-process core of nghttpx
(`src/shrpx_worker_process.cc`): TLS session-ticket key rotation and
remote fetch, the IPC reader, the graceful-shutdown logic, and the
startup decisions of `worker_process_event_loop`.  Bytes are modelled as
`Nat`, byte buffers as `List Nat`, file descriptors as `Int`.
-/

namespace WorkerProcess

/-- The two ticket-key ciphers accepted by the memcached parsing code
(`EVP_aes_128_cbc` / `EVP_aes_256_cbc`); `other` stands for any other
`tls_ticket_key_cipher` value, which that code drops. -/
inductive Cipher
  | aes128cbc
  | aes256cbc
  | other
deriving DecidableEq

/-- `EVP_MD_size(EVP_sha256())`. -/
def sha256DigestLen : Nat := 32

/-- One TLS session-ticket key: cipher and HMAC algorithm identifiers, the
recorded HMAC key length, and the `data` buffers (`name`, `enc_key`,
`hmac_key`).  The HMAC digest is always `EVP_sha256()` in this code, so it
is not carried as a field. -/
structure TicketKey where
  cipher : Cipher
  hmacKeylen : Nat
  name : List Nat
  encKey : List Nat
  hmacKey : List Nat
deriving DecidableEq

/-- `generate_ticket_key` (lines 164-184): sets `cipher`, `hmac = SHA-256`,
`hmac_keylen = EVP_MD_size(hmac)` and fills the 80-byte `data` struct
(16-byte `name`, 32-byte `enc_key`, 32-byte `hmac_key`) from `RAND_bytes`.
`rnd = none` models `RAND_bytes` failure, in which case the function
returns -1 (here `none`). -/
def generate_ticket_key (cipher : Cipher) (rnd : Option (List Nat)) :
    Option TicketKey :=
  match rnd with
  | none => none
  | some bytes =>
    some { cipher := cipher
           hmacKeylen := sha256DigestLen
           name := bytes.take 16
           encKey := (bytes.drop 16).take 32
           hmacKey := (bytes.drop 48).take 32 }

/-- `renew_ticket_key_cb` (lines 188-245), as a function from the currently
published set `old` (`none` = null reference), `maxTickets`
(`tls_session_timeout` cast to whole hours) and the RNG outcome, to the set
published by the tick.  The outer `Option` marks runs with no defined
result: a failing `assert(!old_keys.empty())`, or `resize(0)` followed by
`copy_n` with count `0 - 1` and a write through `keys[0]`, both out of
bounds, when `min maxTickets (old.length + 1) = 0`.  The inner `Option` is
the published reference: `some none` models
`set_ticket_keys(nullptr); set_ticket_keys_to_worker(nullptr)` on RNG
failure, `some (some keys)` a publication of `keys`. -/
def renew_ticket_key_cb (cipher : Cipher) (old : Option (List TicketKey))
    (maxTickets : Nat) (rnd : Option (List Nat)) :
    Option (Option (List TicketKey)) :=
  match old with
  | some oldKeys =>
    if oldKeys = [] then none
    else
      let newSize := min maxTickets (oldKeys.length + 1)
      if newSize = 0 then none
      else
        let shifted := oldKeys.take (newSize - 1)
        match generate_ticket_key cipher rnd with
        | none => some none
        | some k => some (some (k :: shifted))
  | none =>
    match generate_ticket_key cipher rnd with
    | none => some none
    | some k => some (some [k])

/-- The size formula asserted by the spec for a rotation tick: session
timeout in whole hours clamped to a minimum of 1, capped by one more than
the previous size. -/
def claimedRotationSize (hoursH oldLen : Nat) : Nat :=
  min (max hoursH 1) (oldLen + 1)

/-- A fixed concrete ticket key used by witnesses and counterexamples. -/
def tk0 : TicketKey :=
  { cipher := Cipher.aes128cbc
    hmacKeylen := 32
    name := List.replicate 16 1
    encKey := List.replicate 32 2
    hmacKey := List.replicate 32 3 }

/-- A second fixed concrete ticket key. -/
def tk1 : TicketKey :=
  { cipher := Cipher.aes128cbc
    hmacKeylen := 32
    name := List.replicate 16 4
    encKey := List.replicate 32 5
    hmacKey := List.replicate 32 6 }

example :
    renew_ticket_key_cb Cipher.aes128cbc (some [tk0]) 12
        (some (List.replicate 80 7)) =
      some (some [{ cipher := Cipher.aes128cbc
                    hmacKeylen := 32
                    name := List.replicate 16 7
                    encKey := List.replicate 32 7
                    hmacKey := List.replicate 32 7 }, tk0]) := by
  decide

example :
    renew_ticket_key_cb Cipher.aes128cbc (some [tk0]) 0
        (some (List.replicate 80 7)) = none := by
  decide

/-- `util::get_uint16`: big-endian 16-bit read from a byte buffer. -/
def get_uint16 : List Nat → Nat
  | a :: b :: _ => a * 256 + b
  | _ => 0

/-- `util::get_uint32`: big-endian 32-bit read from a byte buffer. -/
def get_uint32 : List Nat → Nat
  | a :: b :: c :: d :: _ => ((a * 256 + b) * 256 + c) * 256 + d
  | _ => 0

/-- Status codes of a `MemcachedResult` as seen by the fetch callback:
`MEMCACHED_ERR_NO_ERROR`, `MEMCACHED_ERR_EXT_NETWORK_ERROR`, and any other
(default) status. -/
inductive MemcachedStatus
  | noError
  | extNetworkError
  | otherError
deriving DecidableEq

/-- What the fetch callback does: invoke
`on_tls_ticket_key_network_error`, invoke `on_tls_ticket_key_not_found`,
return without invoking any handler (unsupported cipher), or invoke
`on_tls_ticket_key_get_success` with the parsed keys. -/
inductive CbAction
  | networkError
  | notFound
  | dropped
  | getSuccess (keys : List TicketKey)
deriving DecidableEq

/-- The `for (; p != end;)` loop of `memcached_get_ticket_key_cb`
(lines 309-344): each iteration reads a 2-byte `len`, checks it against
`expectedlen` and against the remaining bytes, builds a `TicketKey` from
the next `16 + encKeylen + hmacKeylen` bytes and advances past them.
`fuel` bounds the number of remaining bytes; the top-level caller passes
`rest.length`, which always suffices because every iteration consumes at
least the two `len` bytes, so the `fuel = 0` case with bytes left is
never reached from the top-level entry. -/
def parseTicketKeyLoop (cipher : Cipher)
    (expectedlen encKeylen hmacKeylen : Nat) :
    Nat → List TicketKey → List Nat → CbAction
  | 0, acc, rest =>
    if rest = [] then CbAction.getSuccess acc.reverse
    else CbAction.notFound
  | fuel + 1, acc, rest =>
    if rest = [] then CbAction.getSuccess acc.reverse
    else if rest.length < 2 then CbAction.notFound
    else if get_uint16 rest ≠ expectedlen then CbAction.notFound
    else if (rest.drop 2).length < get_uint16 rest then CbAction.notFound
    else
      parseTicketKeyLoop cipher expectedlen encKeylen hmacKeylen fuel
        ({ cipher := cipher
           hmacKeylen := hmacKeylen
           name := (rest.drop 2).take 16
           encKey := ((rest.drop 2).drop 16).take encKeylen
           hmacKey := ((rest.drop 2).drop (16 + encKeylen)).take hmacKeylen }
          :: acc)
        ((rest.drop 2).drop (16 + encKeylen + hmacKeylen))

/-- The `expectedlen` chosen for each supported cipher (48 for
AES-128-CBC, 80 for AES-256-CBC). -/
def memcachedExpectedLen : Cipher → Nat
  | Cipher.aes128cbc => 48
  | Cipher.aes256cbc => 80
  | Cipher.other => 0

/-- The lambda stored in `req->cb` by `memcached_get_ticket_key_cb`
(lines 257-347): dispatch on the memcached status code, then validate the
4-byte version header and parse the repeated `(len, key_blob)` entries. -/
def memcached_get_ticket_key_cb (cipher : Cipher) (status : MemcachedStatus)
    (value : List Nat) : CbAction :=
  match status with
  | MemcachedStatus.extNetworkError => CbAction.networkError
  | MemcachedStatus.otherError => CbAction.notFound
  | MemcachedStatus.noError =>
    if value.length < 4 then CbAction.notFound
    else if get_uint32 value ≠ 1 then CbAction.notFound
    else
      match cipher with
      | Cipher.aes128cbc =>
        parseTicketKeyLoop cipher 48 16 16 (value.drop 4).length []
          (value.drop 4)
      | Cipher.aes256cbc =>
        parseTicketKeyLoop cipher 80 32 32 (value.drop 4).length []
          (value.drop 4)
      | Cipher.other => CbAction.dropped

/-- Modelled from the spec: the effect of the fetch callback's outcome on
the currently published ticket-key set.  The handlers live outside this
file (`shrpx_connection_handler.cc`): `on_tls_ticket_key_get_success`
publishes the parsed set to the workers, while
`on_tls_ticket_key_not_found` and `on_tls_ticket_key_network_error` only
record the event and reschedule, leaving the current set unchanged. -/
def apply_fetch (state : Option (List TicketKey)) :
    CbAction → Option (List TicketKey)
  | CbAction.getSuccess keys => some keys
  | _ => state

/-- The payload grammar stated by the spec for a version-1 response body:
a sequence of entries `\x7blen : u16 = expectedlen; key_blob : len bytes\x7d`.
Structured with the same byte-count fuel as `parseTicketKeyLoop`. -/
def specWellFormedEntries (expectedlen : Nat) : Nat → List Nat → Bool
  | 0, rest => rest.isEmpty
  | fuel + 1, rest =>
    if rest = [] then true
    else
      decide (2 ≤ rest.length) && (get_uint16 rest == expectedlen) &&
        decide (expectedlen ≤ (rest.drop 2).length) &&
        specWellFormedEntries expectedlen fuel
          ((rest.drop 2).drop expectedlen)

example :
    memcached_get_ticket_key_cb Cipher.aes128cbc MemcachedStatus.noError
        [0, 0, 0, 1] = CbAction.getSuccess [] := by
  decide

example :
    memcached_get_ticket_key_cb Cipher.aes128cbc MemcachedStatus.noError
        ([0, 0, 0, 1, 0, 48] ++ List.replicate 48 9) =
      CbAction.getSuccess
        [{ cipher := Cipher.aes128cbc
           hmacKeylen := 16
           name := List.replicate 16 9
           encKey := List.replicate 16 9
           hmacKey := List.replicate 16 9 }] := by
  decide

/-- The mutable state of the worker process that the event-loop callbacks
in this file touch: the `graceful_shutdown_` flag of the
`ConnectionHandler`, the enabled state of the two acceptors, whether the
connection backlog was drained (`accept_pending_connection`), whether the
drain message was sent to the workers (`graceful_shutdown_worker`), the
configured `num_worker`, the single worker's `num_connections`, and
whether `ev_break` has been called on the main loop. -/
structure WPState where
  gracefulShutdown : Bool
  acceptor4Enabled : Bool
  acceptor6Enabled : Bool
  backlogDrained : Bool
  workerDrainSent : Bool
  numWorker : Nat
  numConnections : Nat
  loopBroken : Bool
deriving DecidableEq

/-- `graceful_shutdown` (lines 87-114): idempotence guard, disable the
acceptors, dispatch the backlog, send the worker drain message, and break
the loop unless a single worker still has connections. -/
def graceful_shutdown (s : WPState) : WPState :=
  if s.gracefulShutdown then s
  else
    let s1 : WPState :=
      { s with gracefulShutdown := true
               acceptor4Enabled := false
               acceptor6Enabled := false
               backlogDrained := true
               workerDrainSent := true }
    if s1.numWorker = 1 ∧ s1.numConnections > 0 then s1
    else { s1 with loopBroken := true }

/-- `reopen_log` (lines 118-127): touches only the log files, none of the
state modelled here. -/
def reopen_log (s : WPState) : WPState := s

/-- Modelled from the spec: the IPC opcode constants
`SHRPX_IPC_GRACEFUL_SHUTDOWN` and `SHRPX_IPC_REOPEN_LOG`, defined in a
header that is not part of this repository snapshot; the spec gives them
as 0x01 and 0x02. -/
def SHRPX_IPC_GRACEFUL_SHUTDOWN : Nat := 1

/-- Modelled from the spec: see `SHRPX_IPC_GRACEFUL_SHUTDOWN`. -/
def SHRPX_IPC_REOPEN_LOG : Nat := 2

/-- The `switch (buf[i])` dispatch of `ipc_readcb` (lines 150-159):
recognised opcodes run their handler, anything else is ignored. -/
def handle_ipc_byte (s : WPState) (b : Nat) : WPState :=
  if b = SHRPX_IPC_GRACEFUL_SHUTDOWN then graceful_shutdown s
  else if b = SHRPX_IPC_REOPEN_LOG then reopen_log s
  else s

/-- One outcome of the `read` system call on the IPC descriptor:
`-1` with an errno, `0` (peer closed), or a successful read of `bytes`. -/
inductive ReadResult
  | err (errno : Nat)
  | closed
  | data (bytes : List Nat)
deriving DecidableEq

/-- The `EINTR` errno value. -/
def EINTR : Nat := 4

/-- The `while ((nread = read(...)) == -1 && errno == EINTR);` retry loop
of `ipc_readcb` (line 135): the first outcome that is not an `EINTR`
failure decides the callback's behaviour.  `none` models a read sequence
of only `EINTR`s, on which the loop never returns. -/
def ipcFirstResult : List ReadResult → Option ReadResult
  | [] => none
  | ReadResult.err e :: rest =>
    if e = EINTR then ipcFirstResult rest else some (ReadResult.err e)
  | r :: _ => some r

/-- What one invocation of `ipc_readcb` (lines 131-160) does, as a state
transformer over the sequence of successive `read` outcomes: a non-EINTR
error only logs (no state change), `read == 0` breaks the event loop, and
data bytes are dispatched in order through `handle_ipc_byte`. -/
def ipc_readcb (s : WPState) (reads : List ReadResult) : WPState :=
  match ipcFirstResult reads with
  | none => s
  | some (ReadResult.err _) => s
  | some ReadResult.closed => { s with loopBroken := true }
  | some (ReadResult.data bytes) => bytes.foldl handle_ipc_byte s

/-- An event observed by the worker-process control loop that can affect
the state modelled in `WPState`: one readiness callback on the IPC
descriptor (the only code in this file that ever touches the acceptors or
the shutdown flag after startup). -/
inductive WPEvent
  | ipcRead (reads : List ReadResult)
deriving DecidableEq

/-- One control-loop event step. -/
def wpStep (s : WPState) : WPEvent → WPState
  | WPEvent.ipcRead reads => ipc_readcb s reads

/-- Run a sequence of control-loop events. -/
def wpRun (s : WPState) : List WPEvent → WPState
  | [] => s
  | e :: es => wpRun (wpStep s e) es

/-- The descriptor fields of `WorkerProcessConfig` consumed by
`worker_process_event_loop`. -/
structure WorkerProcessConfig where
  server_fd : Int
  server_fd6 : Int
  ipc_fd : Int
deriving DecidableEq

/-- Line 372: the IPv4 acceptor is constructed when
`wpconf->server_fd != 1`. -/
def acceptor4_created (wpconf : WorkerProcessConfig) : Bool :=
  decide (wpconf.server_fd ≠ 1)

/-- Lines 368-371: the IPv6 acceptor is constructed when
`wpconf->server_fd6 != -1`. -/
def acceptor6_created (wpconf : WorkerProcessConfig) : Bool :=
  decide (wpconf.server_fd6 ≠ -1)

/-- Modelled from the spec: `server_fd` holds an IPv4 listen socket, "or
`-1` / `1` sentinel meaning absent"; an acceptor exists exactly for a
non-sentinel descriptor. -/
def spec_acceptor4_present (fd : Int) : Bool :=
  decide (fd ≠ -1 ∧ fd ≠ 1)

/-- Modelled from the spec: `read_tls_ticket_key_file` is defined outside
this repository snapshot.  Per the spec it loads one ticket key per
configured file, in order (position 0 = first file), and yields a null
reference when loading fails; a file that fails to load is modelled as
`none` in the input list. -/
def read_tls_ticket_key_file :
    List (Option TicketKey) → Option (List TicketKey)
  | [] => some []
  | none :: _ => none
  | some k :: fs =>
    (read_tls_ticket_key_file fs).map (fun ks => k :: ks)

/-- How the TLS ticket-key machinery is set up at startup. -/
inductive TicketKeySetup
  | noTls
  | memcachedFetcher
  | fileKeys (keys : List TicketKey)
  | autoRotator
deriving DecidableEq

/-- The ticket-key setup decision of `worker_process_event_loop`
(lines 377-421): skip everything when upstream TLS is off; with a
memcached host, install the dispatcher and issue the first fetch;
otherwise try the configured key files, falling back to the internal
generator (the periodic rotation timer plus a first synchronous
`renew_ticket_key_cb`) when no file is configured or loading fails. -/
def ticket_key_setup (upstreamNoTls memcachedHost : Bool)
    (files : List (Option TicketKey)) : TicketKeySetup :=
  if upstreamNoTls then TicketKeySetup.noTls
  else if memcachedHost then TicketKeySetup.memcachedFetcher
  else if files ≠ [] then
    match read_tls_ticket_key_file files with
    | some ks => TicketKeySetup.fileKeys ks
    | none => TicketKeySetup.autoRotator
  else TicketKeySetup.autoRotator

example : ticket_key_setup false false [some tk0] =
    TicketKeySetup.fileKeys [tk0] := by decide

example : ticket_key_setup false false [none] =
    TicketKeySetup.autoRotator := by decide

/-- The ticket key produced by `generate_ticket_key` from an all-7 random
buffer; used in witnesses. -/
def genKey7 : TicketKey :=
  { cipher := Cipher.aes128cbc
    hmacKeylen := 32
    name := List.replicate 16 7
    encKey := List.replicate 32 7
    hmacKey := List.replicate 32 7 }

/-- A concrete worker-process state: running, both acceptors enabled,
single worker with no connections. -/
def ws0 : WPState :=
  { gracefulShutdown := false
    acceptor4Enabled := true
    acceptor6Enabled := true
    backlogDrained := false
    workerDrainSent := false
    numWorker := 1
    numConnections := 0
    loopBroken := false }

/-- C2 (code_bug evaluation): with `tls_session_timeout` below one hour
the cast to whole hours is 0, and a rotation tick over a non-empty prior
set resizes the key vector to `min 0 (1+1) = 0` and then performs the
`copy_n` and `keys[0]` accesses out of bounds (modelled as `none`),
instead of producing the one-key set `min (max 0 1) (1+1) = 1` that the
claim requires. -/
theorem renew_zero_hours_out_of_bounds :
    renew_ticket_key_cb Cipher.aes128cbc (some [tk0]) 0
        (some (List.replicate 80 7)) = none ∧
    claimedRotationSize 0 1 = 1 := by
  decide

/-- C3 (counterexample): on an RNG failure during a rotation tick the
code publishes a null ticket-key reference
(`set_ticket_keys(nullptr); set_ticket_keys_to_worker(nullptr)`), so the
workers do not continue using the previously published set `[tk0]`. -/
theorem rng_failure_clears_previous_set :
    renew_ticket_key_cb Cipher.aes128cbc (some [tk0]) 12 none = some none ∧
    (some none : Option (Option (List TicketKey))) ≠ some (some [tk0]) := by
  decide

/-- C3 (amended): on an RNG failure the rotator publishes no generated
set; it clears the current set to a null reference (dropping the previous
set) and returns, leaving the periodic timer to retry at the next tick. -/
theorem renew_rng_failure_publishes_null (cipher : Cipher)
    (old : List TicketKey) (maxT : Nat) (h1 : old ≠ []) (h2 : 1 ≤ maxT) :
    renew_ticket_key_cb cipher (some old) maxT none = some none ∧
    renew_ticket_key_cb cipher none maxT none = some none := by
  have hsz : ¬ min maxT (old.length + 1) = 0 := by omega
  constructor
  · simp [renew_ticket_key_cb, generate_ticket_key, h1, hsz]
  · rfl

/-- Witness for C3's amended theorem at a concrete one-key state. -/
theorem renew_rng_failure_publishes_null_witness :
    renew_ticket_key_cb Cipher.aes128cbc (some [tk0]) 12 none = some none ∧
    renew_ticket_key_cb Cipher.aes128cbc none 12 none = some none :=
  renew_rng_failure_publishes_null Cipher.aes128cbc [tk0] 12 (by decide)
    (by decide)

/-- C9 (code_bug evaluation): `worker_process_event_loop` tests
`wpconf->server_fd != 1`, so for `server_fd = -1` — a sentinel meaning
"absent" per the spec, as the parallel `server_fd6 != -1` test shows — it
still constructs an IPv4 acceptor. -/
theorem ipv4_acceptor_sentinel_mismatch :
    acceptor4_created { server_fd := -1, server_fd6 := -1, ipc_fd := 0 } =
      true ∧
    spec_acceptor4_present (-1) = false := by
  decide

/-- C10 (counterexample): with a non-empty `tls_ticket_key_files` whose
load fails, `worker_process_event_loop` falls back to the internal
generator and arms the periodic rotation timer, contrary to the claim
that the rotator is never armed when the file list is non-empty. -/
theorem file_load_failure_arms_rotator :
    ticket_key_setup false false [none] = TicketKeySetup.autoRotator ∧
    ([none] : List (Option TicketKey)) ≠ [] := by
  decide

/-- C10 (amended): with TLS enabled, no memcached host and a non-empty
`tls_ticket_key_files`, a successful load installs exactly the file keys
and the rotator is not armed; a failed load falls back to the internal
rotator. -/
theorem ticket_key_files_setup (files : List (Option TicketKey))
    (h : files ≠ []) :
    (∀ ks, read_tls_ticket_key_file files = some ks →
      ticket_key_setup false false files = TicketKeySetup.fileKeys ks) ∧
    (read_tls_ticket_key_file files = none →
      ticket_key_setup false false files = TicketKeySetup.autoRotator) := by
  constructor
  · intro ks hks
    simp [ticket_key_setup, h, hks]
  · intro hn
    simp [ticket_key_setup, h, hn]

/-- Witness for C10's amended theorem at a one-file configuration. -/
theorem ticket_key_files_setup_witness :
    ticket_key_setup false false [some tk0] = TicketKeySetup.fileKeys [tk0] :=
  (ticket_key_files_setup [some tk0] (by decide)).1 [tk0] (by decide)

/-- C1 (counterexample): for the well-versioned 4-byte payload
`[0,0,0,1]` carrying zero key entries, the fetch callback reaches
`on_tls_ticket_key_get_success` with an empty key list, publishing an
empty set over whatever was current. -/
theorem fetch_publishes_empty_set :
    memcached_get_ticket_key_cb Cipher.aes128cbc MemcachedStatus.noError
        [0, 0, 0, 1] = CbAction.getSuccess [] ∧
    apply_fetch (some [tk0])
        (memcached_get_ticket_key_cb Cipher.aes128cbc MemcachedStatus.noError
          [0, 0, 0, 1]) = some [] ∧
    ¬ 1 ≤ List.length ([] : List TicketKey) := by
  decide

/-- C1 (amended): every set published by a successful rotation tick is
non-empty, and a successful load of a non-empty file list yields a
non-empty set; but the remote fetcher publishes the empty set for a
version-1 payload with zero key entries. -/
theorem published_sets_nonempty_except_fetch
    (cipher : Cipher) (old : Option (List TicketKey)) (maxT : Nat)
    (rnd : Option (List Nat)) (ks : List TicketKey)
    (files : List (Option TicketKey)) (fks : List TicketKey)
    (hrot : renew_ticket_key_cb cipher old maxT rnd = some (some ks))
    (hfiles : files ≠ [])
    (hload : read_tls_ticket_key_file files = some fks) :
    ks ≠ [] ∧ fks ≠ [] ∧
    memcached_get_ticket_key_cb Cipher.aes128cbc MemcachedStatus.noError
      [0, 0, 0, 1] = CbAction.getSuccess [] := by
  refine ⟨?_, ?_, by decide⟩
  · cases old with
    | none =>
      cases hr : generate_ticket_key cipher rnd with
      | none => simp [renew_ticket_key_cb, hr] at hrot
      | some k =>
        simp [renew_ticket_key_cb, hr] at hrot
        simp [← hrot]
    | some oldKeys =>
      by_cases he : oldKeys = []
      · simp [renew_ticket_key_cb, he] at hrot
      · by_cases hz : min maxT (oldKeys.length + 1) = 0
        · simp [renew_ticket_key_cb, he, hz] at hrot
        · cases hr : generate_ticket_key cipher rnd with
          | none => simp [renew_ticket_key_cb, he, hz, hr] at hrot
          | some k =>
            simp [renew_ticket_key_cb, he, hz, hr] at hrot
            simp [← hrot]
  · cases files with
    | nil => exact absurd rfl hfiles
    | cons f fs =>
      cases f with
      | none => simp [read_tls_ticket_key_file] at hload
      | some k =>
        cases hfs : read_tls_ticket_key_file fs with
        | none => simp [read_tls_ticket_key_file, hfs] at hload
        | some ks2 =>
          simp [read_tls_ticket_key_file, hfs] at hload
          simp [← hload]

/-- Witness for C1's amended theorem: a first rotation tick and a
one-file load. -/
theorem published_sets_nonempty_except_fetch_witness :
    [genKey7] ≠ ([] : List TicketKey) ∧ [tk0] ≠ ([] : List TicketKey) ∧
    memcached_get_ticket_key_cb Cipher.aes128cbc MemcachedStatus.noError
      [0, 0, 0, 1] = CbAction.getSuccess [] :=
  published_sets_nonempty_except_fetch Cipher.aes128cbc none 12
    (some (List.replicate 80 7)) [genKey7] [some tk0] [tk0]
    (by decide) (by decide) (by decide)

/-- Helper: a graceful-shutdown event starting from a running state sets
the idempotence flag and disables both acceptors. -/
theorem graceful_shutdown_fields (s : WPState)
    (h : s.gracefulShutdown = false) :
    (graceful_shutdown s).gracefulShutdown = true ∧
    (graceful_shutdown s).acceptor4Enabled = false ∧
    (graceful_shutdown s).acceptor6Enabled = false := by
  simp only [graceful_shutdown, h, Bool.false_eq_true, if_false]
  split_ifs <;> simp

/-- Helper: a graceful-shutdown event is the identity once the flag is
set. -/
theorem graceful_shutdown_idem (s : WPState)
    (h : s.gracefulShutdown = true) : graceful_shutdown s = s := by
  simp [graceful_shutdown, h]

/-- Helper: no IPC byte re-enables a disabled acceptor. -/
theorem handle_ipc_byte_keeps_acceptors_off (s : WPState) (b : Nat)
    (h4 : s.acceptor4Enabled = false) (h6 : s.acceptor6Enabled = false) :
    (handle_ipc_byte s b).acceptor4Enabled = false ∧
    (handle_ipc_byte s b).acceptor6Enabled = false := by
  simp only [handle_ipc_byte, graceful_shutdown, reopen_log]
  split_ifs <;> simp_all

/-- Helper: dispatching a whole IPC buffer re-enables no acceptor. -/
theorem foldl_ipc_keeps_acceptors_off (bytes : List Nat) :
    ∀ s : WPState, s.acceptor4Enabled = false →
    s.acceptor6Enabled = false →
    (bytes.foldl handle_ipc_byte s).acceptor4Enabled = false ∧
    (bytes.foldl handle_ipc_byte s).acceptor6Enabled = false := by
  induction bytes with
  | nil => exact fun s h4 h6 => ⟨h4, h6⟩
  | cons b bs ih =>
    intro s h4 h6
    have h := handle_ipc_byte_keeps_acceptors_off s b h4 h6
    exact ih _ h.1 h.2

/-- Helper: one IPC readiness callback re-enables no acceptor. -/
theorem ipc_readcb_keeps_acceptors_off (s : WPState)
    (reads : List ReadResult) (h4 : s.acceptor4Enabled = false)
    (h6 : s.acceptor6Enabled = false) :
    (ipc_readcb s reads).acceptor4Enabled = false ∧
    (ipc_readcb s reads).acceptor6Enabled = false := by
  cases hfr : ipcFirstResult reads with
  | none => simpa [ipc_readcb, hfr] using ⟨h4, h6⟩
  | some r =>
    cases r with
    | err e => simpa [ipc_readcb, hfr] using ⟨h4, h6⟩
    | closed => simpa [ipc_readcb, hfr] using ⟨h4, h6⟩
    | data bytes =>
      simpa [ipc_readcb, hfr] using
        foldl_ipc_keeps_acceptors_off bytes s h4 h6

/-- Helper: no run of control-loop events re-enables a disabled
acceptor. -/
theorem wpRun_keeps_acceptors_off (evs : List WPEvent) :
    ∀ s : WPState, s.acceptor4Enabled = false →
    s.acceptor6Enabled = false →
    (wpRun s evs).acceptor4Enabled = false ∧
    (wpRun s evs).acceptor6Enabled = false := by
  induction evs with
  | nil => exact fun s h4 h6 => ⟨h4, h6⟩
  | cons e es ih =>
    intro s h4 h6
    cases e with
    | ipcRead reads =>
      have h := ipc_readcb_keeps_acceptors_off s reads h4 h6
      exact ih _ h.1 h.2

/-- C4: for every invocation of the IPC read callback, a leading `EINTR`
failure is retried transparently; a read of 0 breaks the event loop and
changes nothing else; a read of -1 with any other errno only logs and
returns, with no state change and no loop break. -/
theorem ipc_readcb_error_handling (s : WPState) (reads : List ReadResult)
    (e : Nat) (he : e ≠ EINTR) :
    ipc_readcb s (ReadResult.err EINTR :: reads) = ipc_readcb s reads ∧
    ipc_readcb s (ReadResult.closed :: reads) =
      { s with loopBroken := true } ∧
    ipc_readcb s (ReadResult.err e :: reads) = s := by
  refine ⟨?_, rfl, ?_⟩
  · simp [ipc_readcb, ipcFirstResult]
  · simp [ipc_readcb, ipcFirstResult, he]

/-- Witness for C4 at a concrete state, retry tail and errno. -/
theorem ipc_readcb_error_handling_witness :
    ipc_readcb ws0 [ReadResult.err EINTR, ReadResult.closed] =
      ipc_readcb ws0 [ReadResult.closed] :=
  (ipc_readcb_error_handling ws0 [ReadResult.closed] 9 (by decide)).1

/-- C5: in single-worker mode, the graceful-shutdown event that leaves
the running state breaks the event loop exactly when the worker has no
connections at that moment; in every case it disables both acceptors and
drains the pending-connection backlog. -/
theorem graceful_shutdown_single_worker (s : WPState)
    (hg : s.gracefulShutdown = false) (hb : s.loopBroken = false)
    (hw : s.numWorker = 1) :
    ((graceful_shutdown s).loopBroken = true ↔ s.numConnections = 0) ∧
    (graceful_shutdown s).acceptor4Enabled = false ∧
    (graceful_shutdown s).acceptor6Enabled = false ∧
    (graceful_shutdown s).backlogDrained = true := by
  simp only [graceful_shutdown, hg, Bool.false_eq_true, if_false]
  by_cases hc : s.numConnections = 0
  · simp [hw, hc, hb]
  · have hpos : s.numConnections > 0 := Nat.pos_of_ne_zero hc
    simp [hw, hc, hb, hpos]

/-- Witness for C5: an idle single-worker state breaks immediately. -/
theorem graceful_shutdown_single_worker_witness :
    ((graceful_shutdown ws0).loopBroken = true ↔ ws0.numConnections = 0) ∧
    (graceful_shutdown ws0).acceptor4Enabled = false ∧
    (graceful_shutdown ws0).acceptor6Enabled = false ∧
    (graceful_shutdown ws0).backlogDrained = true :=
  graceful_shutdown_single_worker ws0 rfl rfl rfl

/-- C6: once a graceful-shutdown event has been processed from the
running state, a second graceful-shutdown event is a no-op, and no
subsequent sequence of control-loop events ever re-enables either
acceptor. -/
theorem graceful_shutdown_permanent (s : WPState) (evs : List WPEvent)
    (h : s.gracefulShutdown = false) :
    graceful_shutdown (graceful_shutdown s) = graceful_shutdown s ∧
    (wpRun (graceful_shutdown s) evs).acceptor4Enabled = false ∧
    (wpRun (graceful_shutdown s) evs).acceptor6Enabled = false := by
  have hf := graceful_shutdown_fields s h
  exact ⟨graceful_shutdown_idem _ hf.1,
    (wpRun_keeps_acceptors_off evs _ hf.2.1 hf.2.2).1,
    (wpRun_keeps_acceptors_off evs _ hf.2.1 hf.2.2).2⟩

/-- Witness for C6: a shutdown followed by further IPC traffic, including
a repeated shutdown opcode and an unknown opcode. -/
theorem graceful_shutdown_permanent_witness :
    graceful_shutdown (graceful_shutdown ws0) = graceful_shutdown ws0 ∧
    (wpRun (graceful_shutdown ws0)
        [WPEvent.ipcRead [ReadResult.data [1, 2, 99]]]).acceptor4Enabled =
      false ∧
    (wpRun (graceful_shutdown ws0)
        [WPEvent.ipcRead [ReadResult.data [1, 2, 99]]]).acceptor6Enabled =
      false :=
  graceful_shutdown_permanent ws0
    [WPEvent.ipcRead [ReadResult.data [1, 2, 99]]] rfl

/-- Helper: when the remaining bytes violate the entry grammar, the parse
loop reports not-found.  Stated for `expectedlen = 16 + ek + hk`, the
shape of both supported ciphers. -/
theorem parseLoop_notFound_of_bad (cipher : Cipher) (ek hk : Nat) :
    ∀ (fuel : Nat) (acc : List TicketKey) (rest : List Nat),
      specWellFormedEntries (16 + ek + hk) fuel rest = false →
      parseTicketKeyLoop cipher (16 + ek + hk) ek hk fuel acc rest =
        CbAction.notFound := by
  intro fuel
  induction fuel with
  | zero =>
    intro acc rest h
    have hrest : ¬ rest = [] := by
      intro he
      subst he
      simp [specWellFormedEntries] at h
    simp [parseTicketKeyLoop, hrest]
  | succ n ih =>
    intro acc rest h
    have hrest : ¬ rest = [] := by
      intro he
      subst he
      simp [specWellFormedEntries] at h
    simp only [specWellFormedEntries, if_neg hrest] at h
    by_cases h2 : rest.length < 2
    · simp only [parseTicketKeyLoop, if_neg hrest, if_pos h2]
    · by_cases hlen : get_uint16 rest ≠ 16 + ek + hk
      · simp only [parseTicketKeyLoop, if_neg hrest, if_neg h2, if_pos hlen]
      · have hlen' : get_uint16 rest = 16 + ek + hk := not_ne_iff.mp hlen
        by_cases hshort : (rest.drop 2).length < get_uint16 rest
        · simp only [parseTicketKeyLoop, if_neg hrest, if_neg h2,
            if_neg hlen, if_pos hshort]
        · have h2' : 2 ≤ rest.length := Nat.le_of_not_lt h2
          have hshort' : 16 + ek + hk ≤ (rest.drop 2).length := by
            rw [← hlen']
            exact Nat.le_of_not_lt hshort
          simp only [h2', hlen', hshort', decide_True, beq_self_eq_true,
            Bool.true_and] at h
          simp only [parseTicketKeyLoop, if_neg hrest, if_neg h2,
            if_neg hlen, if_neg hshort]
          exact ih _ _ h

/-- Helper: every key delivered by a successful run of the parse loop,
beyond those already accumulated, carries the loop's `hmac_keylen`
argument. -/
theorem parseLoop_hmacKeylen (cipher : Cipher) (el ek hk : Nat) :
    ∀ (fuel : Nat) (acc : List TicketKey) (rest : List Nat)
      (ks : List TicketKey),
      (∀ k ∈ acc, k.hmacKeylen = hk) →
      parseTicketKeyLoop cipher el ek hk fuel acc rest =
        CbAction.getSuccess ks →
      ∀ k ∈ ks, k.hmacKeylen = hk := by
  intro fuel
  induction fuel with
  | zero =>
    intro acc rest ks hacc hp
    by_cases hrest : rest = []
    · simp only [parseTicketKeyLoop, if_pos hrest,
        CbAction.getSuccess.injEq] at hp
      subst hp
      intro k hk2
      exact hacc k (List.mem_reverse.mp hk2)
    · simp [parseTicketKeyLoop, hrest] at hp
  | succ n ih =>
    intro acc rest ks hacc hp
    by_cases hrest : rest = []
    · simp only [parseTicketKeyLoop, if_pos hrest,
        CbAction.getSuccess.injEq] at hp
      subst hp
      intro k hk2
      exact hacc k (List.mem_reverse.mp hk2)
    · simp only [parseTicketKeyLoop, if_neg hrest] at hp
      by_cases h2 : rest.length < 2
      · rw [if_pos h2] at hp
        exact absurd hp (by simp)
      · rw [if_neg h2] at hp
        by_cases hlen : get_uint16 rest ≠ el
        · rw [if_pos hlen] at hp
          exact absurd hp (by simp)
        · rw [if_neg hlen] at hp
          by_cases hshort : (rest.drop 2).length < get_uint16 rest
          · rw [if_pos hshort] at hp
            exact absurd hp (by simp)
          · rw [if_neg hshort] at hp
            refine ih _ _ _ ?_ hp
            intro k hk2
            rcases List.mem_cons.mp hk2 with hk3 | hk3
            · subst hk3
              rfl
            · exact hacc k hk3

/-- C7: a remote-fetch response whose payload is structurally invalid —
shorter than the 4-byte header, a version other than 1, or a body that
breaks the entry grammar (truncated or wrong `len` field, or a key blob
shorter than its declared length) — makes the callback record a
not-found event and publish nothing: the current set is unchanged. -/
theorem memcached_structural_error_not_found (cipher : Cipher)
    (value : List Nat) (hc : cipher ≠ Cipher.other)
    (herr : value.length < 4 ∨ get_uint32 value ≠ 1 ∨
      specWellFormedEntries (memcachedExpectedLen cipher)
        (value.drop 4).length (value.drop 4) = false) :
    memcached_get_ticket_key_cb cipher MemcachedStatus.noError value =
      CbAction.notFound ∧
    ∀ s, apply_fetch s
        (memcached_get_ticket_key_cb cipher MemcachedStatus.noError value) =
      s := by
  have hmain : memcached_get_ticket_key_cb cipher MemcachedStatus.noError
      value = CbAction.notFound := by
    by_cases hlt : value.length < 4
    · simp [memcached_get_ticket_key_cb, hlt]
    · by_cases hv : get_uint32 value ≠ 1
      · simp [memcached_get_ticket_key_cb, hlt, hv]
      · have hbad : specWellFormedEntries (memcachedExpectedLen cipher)
            (value.drop 4).length (value.drop 4) = false := by
          rcases herr with h | h | h
          · exact absurd h hlt
          · exact absurd h hv
          · exact h
        cases cipher with
        | aes128cbc =>
          have hbad' : specWellFormedEntries (16 + 16 + 16)
              (value.drop 4).length (value.drop 4) = false := hbad
          simp only [memcached_get_ticket_key_cb, if_neg hlt, if_neg hv]
          exact parseLoop_notFound_of_bad Cipher.aes128cbc 16 16 _ _ _ hbad'
        | aes256cbc =>
          have hbad' : specWellFormedEntries (16 + 32 + 32)
              (value.drop 4).length (value.drop 4) = false := hbad
          simp only [memcached_get_ticket_key_cb, if_neg hlt, if_neg hv]
          exact parseLoop_notFound_of_bad Cipher.aes256cbc 32 32 _ _ _ hbad'
        | other => exact absurd rfl hc
  exact ⟨hmain, fun s => by rw [hmain]; rfl⟩

/-- Witness for C7 at the spec's S4 scenario: the payload
`[0,0,0,2]` (version = 2) yields not-found and leaves a current one-key
set untouched. -/
theorem memcached_structural_error_not_found_witness :
    memcached_get_ticket_key_cb Cipher.aes128cbc MemcachedStatus.noError
        [0, 0, 0, 2] = CbAction.notFound ∧
    apply_fetch (some [tk0])
        (memcached_get_ticket_key_cb Cipher.aes128cbc
          MemcachedStatus.noError [0, 0, 0, 2]) = some [tk0] := by
  have h := memcached_structural_error_not_found Cipher.aes128cbc
    [0, 0, 0, 2] (by decide) (Or.inr (Or.inl (by decide)))
  exact ⟨h.1, h.2 (some [tk0])⟩

/-- The single `TicketKey` parsed from an AES-128-CBC payload whose
48-byte blob is all 9s; its `hmac_keylen` is 16. -/
def k128demo : TicketKey :=
  { cipher := Cipher.aes128cbc
    hmacKeylen := 16
    name := List.replicate 16 9
    encKey := List.replicate 16 9
    hmacKey := List.replicate 16 9 }

/-- C8 (counterexample): with the AES-128-CBC cipher configured, a key
parsed from a valid remote-fetch payload is built with
`hmac_keylen = 16`, not the 32-byte SHA-256 digest length the claim
asserts for every constructed key. -/
theorem aes128_fetched_key_short_hmac :
    memcached_get_ticket_key_cb Cipher.aes128cbc MemcachedStatus.noError
        ([0, 0, 0, 1, 0, 48] ++ List.replicate 48 9) =
      CbAction.getSuccess [k128demo] ∧
    k128demo.hmacKeylen = 16 ∧ sha256DigestLen = 32 ∧ (16 : Nat) ≠ 32 := by
  decide

/-- C8 (amended): every key generated by the rotator has an HMAC key
length equal to the SHA-256 digest length (32); keys parsed from a
remote-fetch payload have HMAC key length 32 under AES-256-CBC but 16
under AES-128-CBC. -/
theorem ticket_key_hmac_keylen (cipher : Cipher) (rnd : Option (List Nat))
    (gk : TicketKey) (v128 v256 : List Nat) (ks128 ks256 : List TicketKey)
    (hg : generate_ticket_key cipher rnd = some gk)
    (h128 : memcached_get_ticket_key_cb Cipher.aes128cbc
      MemcachedStatus.noError v128 = CbAction.getSuccess ks128)
    (h256 : memcached_get_ticket_key_cb Cipher.aes256cbc
      MemcachedStatus.noError v256 = CbAction.getSuccess ks256) :
    gk.hmacKeylen = sha256DigestLen ∧
    (∀ k ∈ ks256, k.hmacKeylen = sha256DigestLen) ∧
    (∀ k ∈ ks128, k.hmacKeylen = 16) := by
  refine ⟨?_, ?_, ?_⟩
  · cases rnd with
    | none => simp [generate_ticket_key] at hg
    | some bytes =>
      simp only [generate_ticket_key, Option.some.injEq] at hg
      rw [← hg]
  · by_cases ha : v256.length < 4
    · simp [memcached_get_ticket_key_cb, ha] at h256
    · by_cases hb : get_uint32 v256 ≠ 1
      · simp [memcached_get_ticket_key_cb, ha, hb] at h256
      · simp only [memcached_get_ticket_key_cb, if_neg ha, if_neg hb] at h256
        exact parseLoop_hmacKeylen Cipher.aes256cbc 80 32 32 _ _ _ _
          (by simp) h256
  · by_cases ha : v128.length < 4
    · simp [memcached_get_ticket_key_cb, ha] at h128
    · by_cases hb : get_uint32 v128 ≠ 1
      · simp [memcached_get_ticket_key_cb, ha, hb] at h128
      · simp only [memcached_get_ticket_key_cb, if_neg ha, if_neg hb] at h128
        exact parseLoop_hmacKeylen Cipher.aes128cbc 48 16 16 _ _ _ _
          (by simp) h128

/-- Witness for C8's amended theorem: a generated key and one fetched key
for each cipher. -/
theorem ticket_key_hmac_keylen_witness :
    genKey7.hmacKeylen = sha256DigestLen ∧
    (∀ k ∈ [{ cipher := Cipher.aes256cbc
              hmacKeylen := 32
              name := List.replicate 16 9
              encKey := List.replicate 32 9
              hmacKey := List.replicate 32 9 : TicketKey }],
      k.hmacKeylen = sha256DigestLen) ∧
    (∀ k ∈ [k128demo], k.hmacKeylen = 16) :=
  ticket_key_hmac_keylen Cipher.aes128cbc (some (List.replicate 80 7))
    genKey7 ([0, 0, 0, 1, 0, 48] ++ List.replicate 48 9)
    ([0, 0, 0, 1, 0, 80] ++ List.replicate 80 9) [k128demo]
    [{ cipher := Cipher.aes256cbc
       hmacKeylen := 32
       name := List.replicate 16 9
       encKey := List.replicate 32 9
       hmacKey := List.replicate 32 9 }]
    (by decide) (by decide) (by decide)

end WorkerProcess
